import Mathlib

/-!
Verification of the API-deployment dispatch and authentication layer of
`backend` (files `api/deployment_helper.py` and
`account_v2/authentication_service.py`), via a shallow embedding in Lean 4.

External collaborators (the ORM key store, `KeyHelper.validate_api_key`,
the file-staging store, the workflow engine, the notification sink and the
Django `authenticate`/`login` machinery) are modelled as explicit outcome
parameters; every control-flow decision made by the embedded functions is
translated from the Python source.
-/

namespace Backend

/-! ## Data model: `api/models.py` objects reaching `deployment_helper.py` -/

/-- The `Workflow` model as used by `DeploymentHelper.execute_workflow`
(only its `id` is read). -/
structure Workflow where
  id : Nat
deriving DecidableEq, Repr

/-- The `APIDeployment` model as used by `DeploymentHelper`:
`id` (the pipeline id), `api_name`, `api_endpoint`, `is_active` and the
associated `workflow`. -/
structure APIDeployment where
  id : Nat
  api_name : String
  api_endpoint : String
  is_active : Bool
  workflow : Workflow
deriving DecidableEq, Repr

/-- The exceptions raised on the validation path of
`DeploymentHelper.validate_api` (`api/exceptions.py`): `APINotFound`,
`InactiveAPI`, and the key-mismatch failure raised inside
`KeyHelper.validate_api_key`. -/
inductive APIError where
  | APINotFound
  | InactiveAPI
  | UnauthorizedKey
deriving DecidableEq, Repr

/-! ## `DeploymentHelper.get_deployment_by_api_name` and `validate_api` -/

/-- `DeploymentHelper.get_deployment_by_api_name`: a single ORM lookup,
returning the deployment when one matches `api_name` and `None` when
`APIDeployment.DoesNotExist` is raised.  The ORM table is modelled as the
lookup function `store`. -/
def get_deployment_by_api_name (store : String → Option APIDeployment)
    (api_name : String) : Option APIDeployment :=
  store api_name

/-- `DeploymentHelper.validate_api`: raises `APINotFound` when the
deployment is `None`, raises `InactiveAPI` when its `is_active` flag is
false, and otherwise defers to `KeyHelper.validate_api_key`.  The key
check lives in `api/key_helper.py` (outside the embedded sources), so it
is passed in as the outcome function `validate_api_key`. -/
def validate_api (validate_api_key : String → APIDeployment → Except APIError Unit)
    (api_deployment : Option APIDeployment) (api_key : String) :
    Except APIError Unit :=
  match api_deployment with
  | none => .error .APINotFound
  | some d =>
    if !d.is_active then .error .InactiveAPI
    else validate_api_key api_key d

/-! ## `urllib.parse.urlencode`, as called by `construct_status_endpoint` -/

/-- Uppercase hexadecimal digit for `n < 16`, as produced by
`urllib.parse.quote`'s percent-escapes. -/
def hexDigitChar (n : Nat) : Char :=
  if n < 10 then Char.ofNat (48 + n) else Char.ofNat (55 + n)

/-- UTF-8 bytes of a code point, used because Python percent-encodes the
UTF-8 encoding of non-safe characters. -/
def utf8Bytes (c : Char) : List Nat :=
  let n := c.toNat
  if n < 128 then [n]
  else if n < 2048 then [192 + n / 64, 128 + n % 64]
  else if n < 65536 then [224 + n / 4096, 128 + (n / 64) % 64, 128 + n % 64]
  else [240 + n / 262144, 128 + (n / 4096) % 64, 128 + (n / 64) % 64, 128 + n % 64]

/-- The characters `urllib.parse.quote_plus` leaves unescaped with the
default `safe` set: ASCII letters, digits, and `_.-~`. -/
def isUrlSafeChar (c : Char) : Bool :=
  (('A' ≤ c && c ≤ 'Z') || ('a' ≤ c && c ≤ 'z') || ('0' ≤ c && c ≤ '9')
    || c = '_' || c = '.' || c = '-' || c = '~')

/-- `quote_plus` on a single character: safe characters pass through,
a space becomes `+`, anything else is percent-encoded byte by byte. -/
def quote_plus_char (c : Char) : String :=
  if isUrlSafeChar c then String.singleton c
  else if c = ' ' then "+"
  else String.join ((utf8Bytes c).map
    (fun b => String.mk ['%', hexDigitChar (b / 16), hexDigitChar (b % 16)]))

/-- `quote_plus` over a list of characters. -/
def quote_plus_list : List Char → String
  | [] => ""
  | c :: cs => quote_plus_char c ++ quote_plus_list cs

/-- `urllib.parse.quote_plus` with the default empty `safe` set, which is
what `urlencode` applies to each key and value. -/
def quote_plus (s : String) : String :=
  quote_plus_list s.data

/-- `urllib.parse.urlencode`: `&`-joined `key=value` pairs, each side
passed through `quote_plus`. -/
def urlencode : List (String × String) → String
  | [] => ""
  | [p] => quote_plus p.1 ++ "=" ++ quote_plus p.2
  | p :: ps => quote_plus p.1 ++ "=" ++ quote_plus p.2 ++ "&" ++ urlencode ps

/-- `DeploymentHelper.construct_status_endpoint`: prepends `/` to the
deployment's endpoint and appends `execution_id` as a query parameter. -/
def construct_status_endpoint (api_endpoint : String) (execution_id : String) :
    String :=
  let query_parameters := urlencode [("execution_id", execution_id)]
  "/" ++ api_endpoint ++ "?" ++ query_parameters

/-- Characters occurring in `str(uuid.uuid4())`: lowercase hexadecimal
digits and the hyphen. -/
def isUuid4Char (c : Char) : Bool :=
  ('0' ≤ c && c ≤ '9') || ('a' ≤ c && c ≤ 'f') || c = '-'

/-! ## `DeploymentHelper.execute_workflow` -/

/-- The `ExecutionResponse` DTO (`workflow_manager/workflow/dto.py`,
outside the embedded sources) as the dispatch path uses it.  Modelled from
the spec: the execution result carries the workflow id, the execution id,
a status, an optional error cause, an optional status-polling URL, an
optional result payload and optional metadata fields.  The constructor
call on the failure path fills only the first four; the rest default to
`none`. -/
structure ExecutionResponse where
  workflow_id : Nat
  execution_id : String
  execution_status : String
  error : Option String := none
  status_api : Option String := none
  result : Option String := none
  metadata : Option (List (String × String)) := none
deriving DecidableEq, Repr

/-- `ExecutionStatus.ERROR.value` (`workflow_manager/workflow/enums.py`,
outside the embedded sources).  Modelled from the spec: the status string
marking the `error` state of a result. -/
def ExecutionStatus_ERROR_value : String := "ERROR"

/-- `ExecutionResponse.remove_result_metadata_keys` (defined with the DTO,
outside the embedded sources).  Modelled from the spec: strips the result
metadata fields before returning. -/
def remove_result_metadata_keys (r : ExecutionResponse) : ExecutionResponse :=
  { r with metadata := none }

/-- `APIExecutionResponseSerializer(result).data` (`api/serializers.py`,
outside the embedded sources).  Modelled from the spec: serializes the
execution result's fields into the JSON response; no field is altered. -/
def APIExecutionResponseSerializer_data (r : ExecutionResponse) :
    ExecutionResponse := r

/-- Side effects issued by `execute_workflow`, in call order:
`SourceConnector.add_input_file_to_api_storage`,
`WorkflowHelper.execute_workflow_async`, `cls._send_notification`, and
`DestinationConnector.delete_api_storage_dir`. -/
inductive Effect where
  | stageFiles (workflow_id : Nat) (execution_id : String)
      (file_objs : List String)
  | invokeEngine (workflow_id : Nat) (pipeline_id : Nat)
      (hash_values_of_files : List String) (timeout : Int)
      (execution_id : String)
  | sendNotification (execution_id : String)
  | deleteStagingDir (workflow_id : Nat) (execution_id : String)
deriving DecidableEq, Repr

/-- Outcomes of the three fallible external calls made during one
dispatch: file staging (returns the per-file hash values or raises),
the asynchronous engine invocation (returns an `ExecutionResponse` or
raises), and the notification call (may raise).  Errors carry `str(error)`. -/
structure DispatchEnv where
  staging : Except String (List String)
  engine : Except String ExecutionResponse
  notification : Except String Unit
deriving Repr

/-- `DeploymentHelper.execute_workflow`, translated line by line.
`execution_id` stands for the freshly generated `str(uuid.uuid4())`.
The staging call sits *before* the `try` block, so a staging failure
propagates as an exception (`Except.error`).  Inside the `try`: on engine
success the status endpoint is attached, metadata is stripped unless
`include_metadata`, and the notification is sent; any exception raised
inside the block — by the engine call or by the notification call —
deletes the staged directory and produces a fresh error-status
`ExecutionResponse`.  Returns the serialized result paired with the list
of external calls issued. -/
def execute_workflow (env : DispatchEnv) (api : APIDeployment)
    (file_objs : List String) (timeout : Int) (include_metadata : Bool)
    (execution_id : String) :
    Except String ExecutionResponse × List Effect :=
  let workflow_id := api.workflow.id
  let pipeline_id := api.id
  match env.staging with
  | .error e =>
    (.error e, [.stageFiles workflow_id execution_id file_objs])
  | .ok hash_values_of_files =>
    let calls := [Effect.stageFiles workflow_id execution_id file_objs,
                  Effect.invokeEngine workflow_id pipeline_id
                    hash_values_of_files timeout execution_id]
    match env.engine with
    | .error e =>
      (.ok (APIExecutionResponseSerializer_data
              { workflow_id := workflow_id, execution_id := execution_id,
                execution_status := ExecutionStatus_ERROR_value,
                error := some e }),
       calls ++ [Effect.deleteStagingDir workflow_id execution_id])
    | .ok r =>
      let sa := some (construct_status_endpoint api.api_endpoint execution_id)
      let r := { r with status_api := sa }
      let r := if !include_metadata then remove_result_metadata_keys r else r
      match env.notification with
      | .ok _ =>
        (.ok (APIExecutionResponseSerializer_data r),
         calls ++ [Effect.sendNotification execution_id])
      | .error e =>
        (.ok (APIExecutionResponseSerializer_data
                { workflow_id := workflow_id, execution_id := execution_id,
                  execution_status := ExecutionStatus_ERROR_value,
                  error := some e }),
         calls ++ [Effect.sendNotification execution_id,
                   Effect.deleteStagingDir workflow_id execution_id])

/-! ## `account_v2/authentication_service.py`: login and rate limiting -/

/-- A Django `User` as read by `authenticate_and_login`: only its
`is_superuser` flag steers control flow; the username identifies it. -/
structure User where
  username : String
  is_superuser : Bool
deriving DecidableEq, Repr

/-- Calls into the external authentication machinery observed during one
login attempt: the Django `authenticate` calls, the Django `login` call
(carrying the user logged in), the `_set_default_user` bootstrap, and the
session organization-id update. -/
inductive AuthEvent where
  | authenticateCall (username : String) (password : String)
  | loginCall (user : User)
  | setDefaultUserCall
  | setOrganizationIdCall
deriving DecidableEq, Repr

/-- Outcomes of the external authentication machinery during one login
attempt: what the first `authenticate` call returns, whether
`_set_default_user` succeeds, and what the `authenticate` retry after it
returns. -/
structure AuthBackend where
  auth1 : Option User
  set_default_user_ok : Bool
  auth2 : Option User
deriving DecidableEq, Repr

/-- `AuthenticationService.authenticate_and_login`, translated line by
line: a user returned by the first `authenticate` whose `is_superuser`
flag is set is rejected without `login` (to avoid conflicts with the
Django superuser); any other user is logged in; on `None`,
`_set_default_user` is attempted and `authenticate` retried, logging in
whatever user the retry returns and recording the organization id in the
session.  Returns the success flag and the calls issued, in order. -/
def authenticate_and_login (env : AuthBackend) (username password : String) :
    Bool × List AuthEvent :=
  match env.auth1 with
  | some user =>
    if user.is_superuser then
      (false, [.authenticateCall username password])
    else
      (true, [.authenticateCall username password, .loginCall user])
  | none =>
    if env.set_default_user_ok then
      match env.auth2 with
      | some user =>
        (true, [.authenticateCall username password, .setDefaultUserCall,
                .authenticateCall username password, .loginCall user,
                .setOrganizationIdCall])
      | none =>
        (false, [.authenticateCall username password, .setDefaultUserCall,
                 .authenticateCall username password])
    else
      (false, [.authenticateCall username password, .setDefaultUserCall])

/-- The character class of the pattern `[A-Z]` in
`_validate_password_complexity`. -/
def isUpperAZ (c : Char) : Bool := 'A' ≤ c && c ≤ 'Z'

/-- The character class of the pattern `[a-z]`. -/
def isLowerAZ (c : Char) : Bool := 'a' ≤ c && c ≤ 'z'

/-- The character class of the pattern `[0-9]`. -/
def isDigit09 (c : Char) : Bool := '0' ≤ c && c ≤ '9'

/-- The character class of the pattern `[^A-Za-z0-9]`. -/
def isSpecialChar (c : Char) : Bool :=
  !(isUpperAZ c || isLowerAZ c || isDigit09 c)

/-- `AuthenticationService._validate_password_complexity`: raises
`ValueError` (here `Except.error` with the message) on the first unmet
requirement, in source order. -/
def _validate_password_complexity (password : String) : Except String Unit :=
  if password.length < 12 then
    .error "Password must be at least 12 characters long"
  else if !password.data.any isUpperAZ then
    .error "Password must contain uppercase letters"
  else if !password.data.any isLowerAZ then
    .error "Password must contain lowercase letters"
  else if !password.data.any isDigit09 then
    .error "Password must contain numbers"
  else if !password.data.any isSpecialChar then
    .error "Password must contain special characters"
  else .ok ()

/-- `AuthenticationService._is_rate_limited`:
`self.login_attempts.get(ip, 0) >= 5`.  The per-instance dict
`self.login_attempts` is modelled as a total map defaulting to 0. -/
def _is_rate_limited (login_attempts : String → Nat) (ip : String) : Bool :=
  5 ≤ login_attempts ip

/-- `AuthenticationService._increment_login_attempt`:
`self.login_attempts[ip] = self.login_attempts.get(ip, 0) + 1`. -/
def _increment_login_attempt (login_attempts : String → Nat) (ip : String) :
    String → Nat :=
  fun j => if j = ip then login_attempts ip + 1 else login_attempts j

/-- `AuthenticationService._reset_login_attempts`: deletes the IP's entry,
so a later `get(ip, 0)` reads 0 again. -/
def _reset_login_attempts (login_attempts : String → Nat) (ip : String) :
    String → Nat :=
  fun j => if j = ip then 0 else login_attempts j

/-- HTTP method of the login request, as tested by `request.method`. -/
inductive HttpMethod where
  | GET
  | POST
deriving DecidableEq, Repr

/-- One inbound login request: its method, the client IP computed by
`_get_client_ip`, and the outcome of `validate_login_credentials`
(`ValueError` message, or the validated username/password pair). -/
structure LoginRequest where
  method : HttpMethod
  ip : String
  credentials : Except String (String × String)
deriving Repr

/-- What `user_login` hands back to the framework: the plain login page,
the login template rendered with an error message, or the redirect to
`settings.WEB_APP_ORIGIN_URL`. -/
inductive LoginResponse where
  | renderedLoginPage
  | renderedErrorPage (message : String)
  | redirectedToWebApp
deriving DecidableEq, Repr

/-- The literal rate-limit message in `user_login`. -/
def RATE_LIMIT_ERROR_MESSAGE : String :=
  "Too many login attempts. Please try again later."

/-- `ErrorMessage.USER_LOGIN_ERROR` (`account_v2/constants.py`, outside
the embedded sources).  Modelled from the spec: the generic login-failure
message rendered when authentication fails. -/
def USER_LOGIN_ERROR_MESSAGE : String := "Invalid username or password"

/-- `AuthenticationService.user_login`, translated line by line: the
rate-limit check runs first (also for GET); GET renders the login page;
a `ValueError` from credential validation or the complexity check
increments the IP's counter and renders the error; otherwise
`authenticate_and_login` decides between the redirect (resetting the
counter) and the error page (incrementing it).  Returns the response, the
updated `login_attempts` map, and the authentication calls issued. -/
def user_login (env : AuthBackend) (req : LoginRequest)
    (login_attempts : String → Nat) :
    LoginResponse × (String → Nat) × List AuthEvent :=
  let ip := req.ip
  if _is_rate_limited login_attempts ip then
    (.renderedErrorPage RATE_LIMIT_ERROR_MESSAGE, login_attempts, [])
  else if req.method = HttpMethod.GET then
    (.renderedLoginPage, login_attempts, [])
  else
    match req.credentials with
    | .error msg =>
      (.renderedErrorPage msg, _increment_login_attempt login_attempts ip, [])
    | .ok (username, password) =>
      match _validate_password_complexity password with
      | .error msg =>
        (.renderedErrorPage msg, _increment_login_attempt login_attempts ip, [])
      | .ok _ =>
        let res := authenticate_and_login env username password
        if res.fst then
          (.redirectedToWebApp, _reset_login_attempts login_attempts ip, res.snd)
        else
          (.renderedErrorPage USER_LOGIN_ERROR_MESSAGE,
           _increment_login_attempt login_attempts ip, res.snd)

/-- A sequence of login attempts against one `AuthenticationService`
instance: each step carries its own backend outcomes and request, and the
instance's `login_attempts` map threads through.  Returns each step's
response with its authentication calls, and the final map. -/
def run_user_logins :
    List (AuthBackend × LoginRequest) → (String → Nat) →
      List (LoginResponse × List AuthEvent) × (String → Nat)
  | [], login_attempts => ([], login_attempts)
  | (env, req) :: rest, login_attempts =>
    let step := user_login env req login_attempts
    let tail := run_user_logins rest step.2.1
    ((step.1, step.2.2) :: tail.1, tail.2)

/-! ## Concrete fixtures for witnesses and counterexamples -/

/-- A concrete active deployment. -/
def sampleDeployment : APIDeployment :=
  { id := 7, api_name := "invoice-extractor",
    api_endpoint := "deployment/api/mock_org/invoice-extractor/",
    is_active := true, workflow := { id := 3 } }

/-- A concrete value of `str(uuid.uuid4())`. -/
def sampleUuid : String := "3f2b8a9c-1d4e-4f6a-9b2c-7e8d5a6f4c1b"

/-- A dispatch in which the file-staging call raises. -/
def stagingFailureEnv : DispatchEnv :=
  { staging := .error "No space left on device",
    engine := .ok { workflow_id := 3, execution_id := sampleUuid,
                    execution_status := "COMPLETED" },
    notification := .ok () }

/-- A dispatch in which staging succeeds and the engine invocation
raises. -/
def engineFailureEnv : DispatchEnv :=
  { staging := .ok ["hash-a"],
    engine := .error "engine unavailable",
    notification := .ok () }

/-- A dispatch in which staging and the engine succeed and the
notification call raises. -/
def notificationFailureEnv : DispatchEnv :=
  { staging := .ok ["hash-a"],
    engine := .ok { workflow_id := 3, execution_id := sampleUuid,
                    execution_status := "COMPLETED",
                    result := some "payload",
                    metadata := some [("page_count", "2")] },
    notification := .error "notification sink unreachable" }

/-- A fully successful dispatch. -/
def successEnv : DispatchEnv :=
  { staging := .ok ["hash-a", "hash-b"],
    engine := .ok { workflow_id := 3, execution_id := sampleUuid,
                    execution_status := "COMPLETED",
                    result := some "payload",
                    metadata := some [("page_count", "2")] },
    notification := .ok () }

/-- A backend where the first `authenticate` call returns a superuser
whose credentials are correct. -/
def superuserBackend : AuthBackend :=
  { auth1 := some { username := "root", is_superuser := true },
    set_default_user_ok := false, auth2 := none }

/-- A backend where the first `authenticate` call returns an ordinary
user. -/
def okUserBackend : AuthBackend :=
  { auth1 := some { username := "alice", is_superuser := false },
    set_default_user_ok := false, auth2 := none }

/-- A `login_attempts` map with 5 recorded failures for one IP. -/
def fiveFailures (ip : String) : String → Nat :=
  fun j => if j = ip then 5 else 0

end Backend

/-! ## Theorems for the deployment validator -/

/-- C3: for every `api_name` with no matching deployment record, validation
(`validate_api` applied to `get_deployment_by_api_name`) fails with
`APINotFound`, whatever key-checking behaviour and key are supplied — in
particular the key check is never consulted. -/
theorem validate_fails_notFound_when_no_deployment
    (store : String → Option Backend.APIDeployment) (api_name : String)
    (h : store api_name = none) :
    ∀ (vk : String → Backend.APIDeployment → Except Backend.APIError Unit)
      (api_key : String),
      Backend.validate_api vk
        (Backend.get_deployment_by_api_name store api_name) api_key
        = Except.error Backend.APIError.APINotFound := by
  intro vk api_key
  simp [Backend.validate_api, Backend.get_deployment_by_api_name, h]

/-- Witness for C3 at a concrete empty store. -/
theorem validate_fails_notFound_when_no_deployment_witness :
    Backend.validate_api (fun _ _ => Except.ok ())
      (Backend.get_deployment_by_api_name (fun _ => none) "invoice-extractor")
      "k" = Except.error Backend.APIError.APINotFound :=
  validate_fails_notFound_when_no_deployment (fun _ => none)
    "invoice-extractor" rfl (fun _ _ => Except.ok ()) "k"

/-- C4: for every deployment whose `is_active` flag is false, validation
fails with `InactiveAPI` whatever key and key-checking behaviour are
supplied: the key check is never reached, so `InactiveAPI` takes
precedence over a key mismatch. -/
theorem validate_fails_inactive_when_not_active
    (d : Backend.APIDeployment) (h : d.is_active = false) :
    ∀ (vk : String → Backend.APIDeployment → Except Backend.APIError Unit)
      (api_key : String),
      Backend.validate_api vk (some d) api_key
        = Except.error Backend.APIError.InactiveAPI := by
  intro vk api_key
  simp [Backend.validate_api, h]

/-- Witness for C4 at a concrete inactive deployment with a key checker
that rejects every key. -/
theorem validate_fails_inactive_when_not_active_witness :
    Backend.validate_api
      (fun _ _ => Except.error Backend.APIError.UnauthorizedKey)
      (some { id := 7, api_name := "invoice-extractor", api_endpoint := "ep",
              is_active := false, workflow := { id := 3 } })
      "correct-key" = Except.error Backend.APIError.InactiveAPI :=
  validate_fails_inactive_when_not_active
    { id := 7, api_name := "invoice-extractor", api_endpoint := "ep",
      is_active := false, workflow := { id := 3 } } rfl
    (fun _ _ => Except.error Backend.APIError.UnauthorizedKey) "correct-key"

/-! ## Helper lemmas about `quote_plus` and the status endpoint -/

/-- String append is associative. -/
theorem string_append_assoc (a b c : String) : a ++ b ++ c = a ++ (b ++ c) := by
  apply String.ext
  simp [String.data_append, List.append_assoc]

/-- A `quote_plus`-safe character passes through unescaped. -/
theorem quote_plus_char_of_safe (c : Char) (h : Backend.isUrlSafeChar c = true) :
    Backend.quote_plus_char c = String.singleton c := by
  simp [Backend.quote_plus_char, h]

/-- A list of safe characters passes through `quote_plus` unchanged. -/
theorem quote_plus_list_of_safe (l : List Char)
    (h : ∀ c ∈ l, Backend.isUrlSafeChar c = true) :
    Backend.quote_plus_list l = String.mk l := by
  induction l with
  | nil => rfl
  | cons c cs ih =>
    have hc := quote_plus_char_of_safe c (h c (by simp))
    have hcs := ih (fun x hx => h x (by simp [hx]))
    simp only [Backend.quote_plus_list, hc, hcs]
    apply String.ext
    simp [String.data_append, String.singleton]

/-- Every character of a `uuid4` string is `quote_plus`-safe. -/
theorem isUrlSafeChar_of_uuid4 (c : Char) (h : Backend.isUuid4Char c = true) :
    Backend.isUrlSafeChar c = true := by
  simp only [Backend.isUuid4Char, Bool.or_eq_true, Bool.and_eq_true,
    decide_eq_true_eq] at h
  simp only [Backend.isUrlSafeChar, Bool.or_eq_true, Bool.and_eq_true,
    decide_eq_true_eq]
  rcases h with (⟨h1, h2⟩ | ⟨h1, h2⟩) | h
  · tauto
  · have h3 : c ≤ 'z' := le_trans h2 (by decide)
    tauto
  · subst h
    simp

/-- A `uuid4` string passes through `quote_plus` unchanged. -/
theorem quote_plus_of_uuid4 (s : String)
    (h : ∀ c ∈ s.data, Backend.isUuid4Char c = true) :
    Backend.quote_plus s = s := by
  unfold Backend.quote_plus
  rw [quote_plus_list_of_safe s.data (fun c hc => isUrlSafeChar_of_uuid4 c (h c hc))]

/-- On a `uuid4` execution id, the status endpoint is the endpoint path
followed by `?execution_id=` and the id itself, unescaped. -/
theorem construct_status_endpoint_of_uuid4 (ep s : String)
    (h : ∀ c ∈ s.data, Backend.isUuid4Char c = true) :
    Backend.construct_status_endpoint ep s
      = "/" ++ ep ++ "?execution_id=" ++ s := by
  unfold Backend.construct_status_endpoint
  have hq : Backend.urlencode [("execution_id", s)] = "execution_id=" ++ s := by
    have h1 : Backend.urlencode [("execution_id", s)]
        = Backend.quote_plus "execution_id" ++ "=" ++ Backend.quote_plus s := rfl
    have h2 : Backend.quote_plus "execution_id" ++ "=" = "execution_id=" := by decide
    rw [h1, quote_plus_of_uuid4 s h, h2]
  rw [hq, ← string_append_assoc]
  rw [string_append_assoc ("/" ++ ep) "?" "execution_id="]
  have h3 : ("?" : String) ++ "execution_id=" = "?execution_id=" := by decide
  rw [h3]

/-! ## Theorems for `execute_workflow` (dispatch) -/

/-- C1, counterexample: when the file-staging call raises (it sits before
the `try` block), `execute_workflow` does not return a serialized
`ExecutionResult` — the exception escapes to the caller. -/
theorem execute_workflow_staging_failure_escapes :
    (Backend.execute_workflow Backend.stagingFailureEnv Backend.sampleDeployment
        ["a.pdf", "b.pdf"] 30 false Backend.sampleUuid).fst
      = Except.error "No space left on device" := rfl

/-- C1, amended: once file staging has succeeded, `execute_workflow`
returns a serialized `ExecutionResult` whose `execution_id` is the
generated (non-empty) execution id, whatever the engine and notification
outcomes; only a staging failure escapes as an exception. -/
theorem execute_workflow_returns_result_after_staging
    (env : Backend.DispatchEnv) (api : Backend.APIDeployment)
    (file_objs : List String) (timeout : Int) (include_metadata : Bool)
    (execution_id : String) (hash_values : List String)
    (hstage : env.staging = Except.ok hash_values)
    (hengine : ∀ r, env.engine = Except.ok r → r.execution_id = execution_id)
    (hid : execution_id ≠ "") :
    ∃ r, (Backend.execute_workflow env api file_objs timeout include_metadata
            execution_id).fst = Except.ok r
      ∧ r.execution_id = execution_id ∧ r.execution_id ≠ "" := by
  obtain ⟨stg, eng, notif⟩ := env
  simp only at hstage hengine
  subst hstage
  cases eng with
  | error e => exact ⟨_, rfl, rfl, hid⟩
  | ok r0 =>
    have hr0 : r0.execution_id = execution_id := hengine r0 rfl
    cases notif with
    | error e => exact ⟨_, rfl, rfl, hid⟩
    | ok u =>
      refine ⟨_, rfl, ?_, ?_⟩ <;> cases include_metadata <;>
        simp [Backend.execute_workflow, Backend.APIExecutionResponseSerializer_data,
          Backend.remove_result_metadata_keys, hr0, hid]

/-- Witness for the amended C1 on a concrete successful dispatch. -/
theorem execute_workflow_returns_result_after_staging_witness :
    ∃ r, (Backend.execute_workflow Backend.successEnv Backend.sampleDeployment
            ["a.pdf", "b.pdf"] 30 true Backend.sampleUuid).fst = Except.ok r
      ∧ r.execution_id = Backend.sampleUuid ∧ r.execution_id ≠ "" :=
  execute_workflow_returns_result_after_staging Backend.successEnv
    Backend.sampleDeployment ["a.pdf", "b.pdf"] 30 true Backend.sampleUuid
    ["hash-a", "hash-b"] rfl
    (fun r hr => by
      simp only [Backend.successEnv, Except.ok.injEq] at hr
      rw [← hr])
    (by decide)

/-- C2, counterexample: when file staging raises, the dispatch fails at
step 2 but `delete_api_storage_dir` is never called — the only external
call issued is the staging call itself, and the exception escapes instead
of an error-state result being returned. -/
theorem execute_workflow_staging_failure_skips_cleanup :
    Backend.execute_workflow Backend.stagingFailureEnv Backend.sampleDeployment
        ["a.pdf"] 30 false Backend.sampleUuid
      = (Except.error "No space left on device",
         [Backend.Effect.stageFiles 3 Backend.sampleUuid ["a.pdf"]]) := rfl

/-- C2, amended: once staging has succeeded, if the engine invocation or
the notification call inside the `try` block fails, the staged-input
directory keyed by (workflow id, execution id) is deleted before
`execute_workflow` returns. -/
theorem execute_workflow_cleanup_on_failure_inside_try
    (env : Backend.DispatchEnv) (api : Backend.APIDeployment)
    (file_objs : List String) (timeout : Int) (include_metadata : Bool)
    (execution_id : String) (hash_values : List String)
    (hstage : env.staging = Except.ok hash_values)
    (hfail : (∃ e, env.engine = Except.error e)
      ∨ (∃ e, env.notification = Except.error e)) :
    Backend.Effect.deleteStagingDir api.workflow.id execution_id
      ∈ (Backend.execute_workflow env api file_objs timeout include_metadata
          execution_id).snd := by
  obtain ⟨stg, eng, notif⟩ := env
  simp only at hstage hfail
  subst hstage
  cases eng with
  | error e => simp [Backend.execute_workflow]
  | ok r0 =>
    cases notif with
    | error e => simp [Backend.execute_workflow]
    | ok u =>
      rcases hfail with ⟨e, he⟩ | ⟨e, he⟩ <;> exact absurd he (by simp)

/-- Witness for the amended C2 on a concrete engine failure. -/
theorem execute_workflow_cleanup_on_failure_inside_try_witness :
    Backend.Effect.deleteStagingDir 3 Backend.sampleUuid
      ∈ (Backend.execute_workflow Backend.engineFailureEnv
          Backend.sampleDeployment ["a.pdf"] 30 false Backend.sampleUuid).snd :=
  execute_workflow_cleanup_on_failure_inside_try Backend.engineFailureEnv
    Backend.sampleDeployment ["a.pdf"] 30 false Backend.sampleUuid
    ["hash-a"] rfl (Or.inl ⟨"engine unavailable", rfl⟩)

/-- C5, counterexample: on an engine-invocation failure the dispatch still
completes (an error-state result is returned, the staging directory is
deleted), yet no notification is sent — notification is coupled to the
success path only. -/
theorem execute_workflow_engine_failure_sends_no_notification :
    (Backend.execute_workflow Backend.engineFailureEnv Backend.sampleDeployment
        ["b.pdf"] 30 false Backend.sampleUuid).snd
      = [Backend.Effect.stageFiles 3 Backend.sampleUuid ["b.pdf"],
         Backend.Effect.invokeEngine 3 7 ["hash-a"] 30 Backend.sampleUuid,
         Backend.Effect.deleteStagingDir 3 Backend.sampleUuid] := rfl

/-- C5, amended: the notification call is made only on the success path,
and when it raises, the exception is caught rather than escaping — but it
is treated as a dispatch failure: the staged directory is deleted and the
returned result is replaced by an error-state result carrying the
notification failure's message. -/
theorem execute_workflow_notification_failure_is_caught
    (env : Backend.DispatchEnv) (api : Backend.APIDeployment)
    (file_objs : List String) (timeout : Int) (include_metadata : Bool)
    (execution_id : String) (hash_values : List String)
    (r0 : Backend.ExecutionResponse) (e : String)
    (hstage : env.staging = Except.ok hash_values)
    (hengine : env.engine = Except.ok r0)
    (hnotif : env.notification = Except.error e) :
    (Backend.execute_workflow env api file_objs timeout include_metadata
        execution_id).fst
      = Except.ok { workflow_id := api.workflow.id, execution_id := execution_id,
                    execution_status := Backend.ExecutionStatus_ERROR_value,
                    error := some e }
    ∧ Backend.Effect.sendNotification execution_id
        ∈ (Backend.execute_workflow env api file_objs timeout include_metadata
            execution_id).snd
    ∧ Backend.Effect.deleteStagingDir api.workflow.id execution_id
        ∈ (Backend.execute_workflow env api file_objs timeout include_metadata
            execution_id).snd := by
  obtain ⟨stg, eng, notif⟩ := env
  simp only at hstage hengine hnotif
  subst hstage; subst hengine; subst hnotif
  refine ⟨rfl, ?_, ?_⟩ <;> simp [Backend.execute_workflow]

/-- Witness for the amended C5 on a concrete notification failure. -/
theorem execute_workflow_notification_failure_is_caught_witness :
    (Backend.execute_workflow Backend.notificationFailureEnv
        Backend.sampleDeployment ["a.pdf"] 30 true Backend.sampleUuid).fst
      = Except.ok { workflow_id := 3, execution_id := Backend.sampleUuid,
                    execution_status := Backend.ExecutionStatus_ERROR_value,
                    error := some "notification sink unreachable" }
    ∧ Backend.Effect.sendNotification Backend.sampleUuid
        ∈ (Backend.execute_workflow Backend.notificationFailureEnv
            Backend.sampleDeployment ["a.pdf"] 30 true Backend.sampleUuid).snd
    ∧ Backend.Effect.deleteStagingDir 3 Backend.sampleUuid
        ∈ (Backend.execute_workflow Backend.notificationFailureEnv
            Backend.sampleDeployment ["a.pdf"] 30 true Backend.sampleUuid).snd :=
  execute_workflow_notification_failure_is_caught
    Backend.notificationFailureEnv Backend.sampleDeployment ["a.pdf"] 30 true
    Backend.sampleUuid ["hash-a"]
    { workflow_id := 3, execution_id := Backend.sampleUuid,
      execution_status := "COMPLETED", result := some "payload",
      metadata := some [("page_count", "2")] }
    "notification sink unreachable" rfl rfl rfl

/-- C6: on a successful dispatch the returned result's `status_api` is the
deployment's endpoint path (with a leading `/`) followed by the generated
execution id appended as the `execution_id` query parameter. -/
theorem execute_workflow_status_api_on_success
    (env : Backend.DispatchEnv) (api : Backend.APIDeployment)
    (file_objs : List String) (timeout : Int) (include_metadata : Bool)
    (execution_id : String) (hash_values : List String)
    (r0 : Backend.ExecutionResponse)
    (hstage : env.staging = Except.ok hash_values)
    (hengine : env.engine = Except.ok r0)
    (hnotif : env.notification = Except.ok ())
    (hid : ∀ c ∈ execution_id.data, Backend.isUuid4Char c = true) :
    ∃ r, (Backend.execute_workflow env api file_objs timeout include_metadata
            execution_id).fst = Except.ok r
      ∧ r.status_api
          = some ("/" ++ api.api_endpoint ++ "?execution_id=" ++ execution_id) := by
  obtain ⟨stg, eng, notif⟩ := env
  simp only at hstage hengine hnotif
  subst hstage; subst hengine; subst hnotif
  refine ⟨_, rfl, ?_⟩
  cases include_metadata <;>
    simp [Backend.execute_workflow, Backend.APIExecutionResponseSerializer_data,
      Backend.remove_result_metadata_keys,
      construct_status_endpoint_of_uuid4 api.api_endpoint execution_id hid]

/-- Witness for C6 on a concrete successful dispatch. -/
theorem execute_workflow_status_api_on_success_witness :
    ∃ r, (Backend.execute_workflow Backend.successEnv Backend.sampleDeployment
            ["a.pdf"] 30 false Backend.sampleUuid).fst = Except.ok r
      ∧ r.status_api
          = some ("/" ++ Backend.sampleDeployment.api_endpoint
              ++ "?execution_id=" ++ Backend.sampleUuid) :=
  execute_workflow_status_api_on_success Backend.successEnv
    Backend.sampleDeployment ["a.pdf"] 30 false Backend.sampleUuid
    ["hash-a", "hash-b"]
    { workflow_id := 3, execution_id := Backend.sampleUuid,
      execution_status := "COMPLETED", result := some "payload",
      metadata := some [("page_count", "2")] }
    rfl rfl rfl (by decide)

/-- C7: on a successful dispatch, with `include_metadata = false` the
returned result carries no metadata fields, and with
`include_metadata = true` the metadata fields provided by the engine are
present unmodified. -/
theorem execute_workflow_metadata_handling
    (env : Backend.DispatchEnv) (api : Backend.APIDeployment)
    (file_objs : List String) (timeout : Int) (execution_id : String)
    (hash_values : List String) (r0 : Backend.ExecutionResponse)
    (hstage : env.staging = Except.ok hash_values)
    (hengine : env.engine = Except.ok r0)
    (hnotif : env.notification = Except.ok ()) :
    (∃ r, (Backend.execute_workflow env api file_objs timeout false
            execution_id).fst = Except.ok r ∧ r.metadata = none)
    ∧ (∃ r, (Backend.execute_workflow env api file_objs timeout true
            execution_id).fst = Except.ok r ∧ r.metadata = r0.metadata) := by
  obtain ⟨stg, eng, notif⟩ := env
  simp only at hstage hengine hnotif
  subst hstage; subst hengine; subst hnotif
  exact ⟨⟨_, rfl, rfl⟩, ⟨_, rfl, rfl⟩⟩

/-- Witness for C7 on a concrete successful dispatch whose engine result
carries metadata. -/
theorem execute_workflow_metadata_handling_witness :
    (∃ r, (Backend.execute_workflow Backend.successEnv Backend.sampleDeployment
            ["a.pdf"] 30 false Backend.sampleUuid).fst = Except.ok r
        ∧ r.metadata = none)
    ∧ (∃ r, (Backend.execute_workflow Backend.successEnv Backend.sampleDeployment
            ["a.pdf"] 30 true Backend.sampleUuid).fst = Except.ok r
        ∧ r.metadata
            = ({ workflow_id := 3, execution_id := Backend.sampleUuid,
                 execution_status := "COMPLETED", result := some "payload",
                 metadata := some [("page_count", "2")] :
                 Backend.ExecutionResponse }).metadata) :=
  execute_workflow_metadata_handling Backend.successEnv
    Backend.sampleDeployment ["a.pdf"] 30 Backend.sampleUuid
    ["hash-a", "hash-b"]
    { workflow_id := 3, execution_id := Backend.sampleUuid,
      execution_status := "COMPLETED", result := some "payload",
      metadata := some [("page_count", "2")] }
    rfl rfl rfl

/-! ## Theorems for authentication and rate limiting -/

/-- The complexity check fails exactly when the password is shorter than
12 characters or lacks an uppercase letter, a lowercase letter, a digit,
or a special (non-alphanumeric) character. -/
theorem validate_password_complexity_error_iff (p : String) :
    (∃ msg, Backend._validate_password_complexity p = Except.error msg)
      ↔ (p.length < 12
        ∨ p.data.any Backend.isUpperAZ = false
        ∨ p.data.any Backend.isLowerAZ = false
        ∨ p.data.any Backend.isDigit09 = false
        ∨ p.data.any Backend.isSpecialChar = false) := by
  unfold Backend._validate_password_complexity
  split_ifs with h1 h2 h3 h4 h5 <;> simp_all

/-- C8: on an `AuthenticationService` instance that has recorded at least
5 failed attempts for an IP, every subsequent sequence of `user_login`
calls from that IP — whatever each request's method and credentials and
whatever each call's authentication outcomes — yields only the rate-limit
error page, issues no authentication call at all, and leaves the
per-instance counter map unchanged, so the block persists. -/
theorem user_login_rate_limited_blocks_all_subsequent
    (ip : String) (login_attempts : String → Nat)
    (h : 5 ≤ login_attempts ip)
    (steps : List (Backend.AuthBackend × Backend.LoginRequest))
    (hip : ∀ s ∈ steps, s.2.ip = ip) :
    (Backend.run_user_logins steps login_attempts).1
        = steps.map (fun _ =>
            (Backend.LoginResponse.renderedErrorPage
               Backend.RATE_LIMIT_ERROR_MESSAGE, ([] : List Backend.AuthEvent)))
      ∧ (Backend.run_user_logins steps login_attempts).2 = login_attempts := by
  induction steps with
  | nil => exact ⟨rfl, rfl⟩
  | cons s rest ih =>
    obtain ⟨env, req⟩ := s
    have hreq : req.ip = ip := hip (env, req) (by simp)
    have hlim : Backend._is_rate_limited login_attempts req.ip = true := by
      simp [Backend._is_rate_limited, hreq, h]
    have ihr := ih (fun x hx => hip x (by simp [hx]))
    simp [Backend.run_user_logins, Backend.user_login, hlim, ihr.1, ihr.2]

/-- Witness for C8: with 5 failures recorded for `10.0.0.1`, a POST with
valid strong credentials and a GET from that IP both get the rate-limit
page, no authentication call is made, and the counter map is unchanged. -/
theorem user_login_rate_limited_blocks_all_subsequent_witness :
    (Backend.run_user_logins
        [(Backend.okUserBackend,
          { method := Backend.HttpMethod.POST, ip := "10.0.0.1",
            credentials := Except.ok ("alice", "Str0ng!Passw0rd") }),
         (Backend.okUserBackend,
          { method := Backend.HttpMethod.GET, ip := "10.0.0.1",
            credentials := Except.error "missing fields" })]
        (Backend.fiveFailures "10.0.0.1")).1
      = [(Backend.LoginResponse.renderedErrorPage
            Backend.RATE_LIMIT_ERROR_MESSAGE, []),
         (Backend.LoginResponse.renderedErrorPage
            Backend.RATE_LIMIT_ERROR_MESSAGE, [])]
    ∧ (Backend.run_user_logins
        [(Backend.okUserBackend,
          { method := Backend.HttpMethod.POST, ip := "10.0.0.1",
            credentials := Except.ok ("alice", "Str0ng!Passw0rd") }),
         (Backend.okUserBackend,
          { method := Backend.HttpMethod.GET, ip := "10.0.0.1",
            credentials := Except.error "missing fields" })]
        (Backend.fiveFailures "10.0.0.1")).2
      = Backend.fiveFailures "10.0.0.1" :=
  user_login_rate_limited_blocks_all_subsequent "10.0.0.1"
    (Backend.fiveFailures "10.0.0.1") (by decide)
    [(Backend.okUserBackend,
      { method := Backend.HttpMethod.POST, ip := "10.0.0.1",
        credentials := Except.ok ("alice", "Str0ng!Passw0rd") }),
     (Backend.okUserBackend,
      { method := Backend.HttpMethod.GET, ip := "10.0.0.1",
        credentials := Except.error "missing fields" })]
    (by
      intro s hs
      simp only [List.mem_cons, List.not_mem_nil, or_false] at hs
      rcases hs with rfl | rfl <;> rfl)

/-- C9, counterexample: a login POST whose password is weak (here
`"short"`, 5 characters), sent from an IP that already has 5 recorded
failures, renders the rate-limit page and does NOT increment the IP's
counter — the weak-password branch (error page plus increment) is never
reached, contradicting the claim for this input. -/
theorem user_login_weak_password_rate_limited_no_increment :
    Backend.user_login Backend.okUserBackend
        { method := Backend.HttpMethod.POST, ip := "10.0.0.1",
          credentials := Except.ok ("alice", "short") }
        (Backend.fiveFailures "10.0.0.1")
      = (Backend.LoginResponse.renderedErrorPage
           Backend.RATE_LIMIT_ERROR_MESSAGE,
         Backend.fiveFailures "10.0.0.1", [])
    ∧ Backend._validate_password_complexity "short"
        = Except.error "Password must be at least 12 characters long" :=
  ⟨rfl, rfl⟩

/-- C9, amended: for every login POST from an IP that is not yet
rate-limited, whose credentials deserialize and whose password fails the
complexity rules, `user_login` renders the error page with the complexity
message and increments the IP's failed-attempt counter without ever
calling `authenticate_and_login` — no authentication event is issued,
whatever the authentication backend would have answered. -/
theorem user_login_weak_password_rejected_before_authentication
    (env : Backend.AuthBackend) (req : Backend.LoginRequest)
    (login_attempts : String → Nat) (username password msg : String)
    (hlim : login_attempts req.ip < 5)
    (hpost : req.method = Backend.HttpMethod.POST)
    (hcred : req.credentials = Except.ok (username, password))
    (hweak : Backend._validate_password_complexity password = Except.error msg) :
    Backend.user_login env req login_attempts
      = (Backend.LoginResponse.renderedErrorPage msg,
         Backend._increment_login_attempt login_attempts req.ip, []) := by
  obtain ⟨m, ip, creds⟩ := req
  simp only at hlim hpost hcred
  subst hpost; subst hcred
  simp [Backend.user_login, Backend._is_rate_limited, Nat.not_le.mpr hlim, hweak]

/-- Witness for the amended C9: a weak password (`"password1"` has no
uppercase and no special character, and is also shorter than 12) from a
fresh IP is rejected with the first complexity message, the counter is
incremented, and no authentication call happens — although the backend
would have authenticated the user. -/
theorem user_login_weak_password_rejected_before_authentication_witness :
    Backend.user_login Backend.okUserBackend
        { method := Backend.HttpMethod.POST, ip := "1.2.3.4",
          credentials := Except.ok ("alice", "password1") }
        (fun _ => 0)
      = (Backend.LoginResponse.renderedErrorPage
           "Password must be at least 12 characters long",
         Backend._increment_login_attempt (fun _ => 0) "1.2.3.4", []) :=
  user_login_weak_password_rejected_before_authentication
    Backend.okUserBackend
    { method := Backend.HttpMethod.POST, ip := "1.2.3.4",
      credentials := Except.ok ("alice", "password1") }
    (fun _ => 0) "alice" "password1"
    "Password must be at least 12 characters long"
    (by decide) rfl rfl rfl

/-- C10: whenever the first `authenticate` call returns a user whose
`is_superuser` flag is true, `authenticate_and_login` returns `false` and
never calls `login` for any user, even though the supplied credentials
were accepted by `authenticate`. -/
theorem authenticate_and_login_rejects_superuser
    (env : Backend.AuthBackend) (u : Backend.User) (username password : String)
    (h1 : env.auth1 = some u) (h2 : u.is_superuser = true) :
    (Backend.authenticate_and_login env username password).fst = false
    ∧ ∀ v, Backend.AuthEvent.loginCall v
        ∉ (Backend.authenticate_and_login env username password).snd := by
  obtain ⟨a1, sd, a2⟩ := env
  simp only at h1
  subst h1
  simp [Backend.authenticate_and_login, h2]

/-- Witness for C10 on a concrete backend returning a superuser. -/
theorem authenticate_and_login_rejects_superuser_witness :
    (Backend.authenticate_and_login Backend.superuserBackend
        "root" "S3cret!Passw0rd").fst = false
    ∧ ∀ v, Backend.AuthEvent.loginCall v
        ∉ (Backend.authenticate_and_login Backend.superuserBackend
            "root" "S3cret!Passw0rd").snd :=
  authenticate_and_login_rejects_superuser Backend.superuserBackend
    { username := "root", is_superuser := true }
    "root" "S3cret!Passw0rd" rfl rfl
